import Mathlib

/-!
Verification of the control logic of the Arducam 64MP V4L2 sensor driver
(drivers/media/i2c/arducam_64mp.c), as a shallow embedding in Lean.

The device/bus pair is modelled explicitly: the i2c transport keeps a log of
the register writes that were applied and a list of write-attempt indices
that fail with -EIO_errno, so partial-failure behaviour is observable.  Control
values are kept as integers, as in the C driver (v4l2 control values are s32).
-/

namespace Arducam

/-! ## Constants from the driver source -/

def ARDUCAM_64MP_REG_VALUE_08BIT : Nat := 1
def ARDUCAM_64MP_REG_VALUE_16BIT : Nat := 2

def ARDUCAM_64MP_REG_MODE_SELECT : Nat := 0x0100
def ARDUCAM_64MP_MODE_STANDBY : Nat := 0x00
def ARDUCAM_64MP_MODE_STREAMING : Nat := 0x01

def ARDUCAM_64MP_REG_ORIENTATION : Nat := 0x101

def ARDUCAM_64MP_PIXEL_RATE : Nat := 900000000

def ARDUCAM_64MP_REG_FRAME_LENGTH : Nat := 0x0340
def ARDUCAM_64MP_FRAME_LENGTH_MAX : Nat := 0xffff

def ARDUCAM_64MP_LONG_EXP_SHIFT_MAX : Nat := 7
def ARDUCAM_64MP_LONG_EXP_SHIFT_REG : Nat := 0x3100

def ARDUCAM_64MP_REG_EXPOSURE : Nat := 0x0202
def ARDUCAM_64MP_EXPOSURE_OFFSET : Int := 48
def ARDUCAM_64MP_EXPOSURE_MIN : Int := 9
def ARDUCAM_64MP_EXPOSURE_STEP : Int := 1
def ARDUCAM_64MP_EXPOSURE_DEFAULT : Int := 0x3e8
def ARDUCAM_64MP_EXPOSURE_MAX : Int := 0xffff - ARDUCAM_64MP_EXPOSURE_OFFSET

def ARDUCAM_64MP_REG_ANALOG_GAIN : Nat := 0x0204
def ARDUCAM_64MP_REG_DIGITAL_GAIN : Nat := 0x020e
def ARDUCAM_64MP_REG_TEST_PATTERN : Nat := 0x0600
def ARDUCAM_64MP_REG_TEST_PATTERN_R : Nat := 0x0602
def ARDUCAM_64MP_REG_TEST_PATTERN_GR : Nat := 0x0604
def ARDUCAM_64MP_REG_TEST_PATTERN_B : Nat := 0x0606
def ARDUCAM_64MP_REG_TEST_PATTERN_GB : Nat := 0x0608

def ARDUCAM_64MP_PIXEL_ARRAY_LEFT : Nat := 48
def ARDUCAM_64MP_PIXEL_ARRAY_TOP : Nat := 40

/-- Values of the MEDIA_BUS_FMT constants used in the `codes` table. -/
def MEDIA_BUS_FMT_SRGGB10_1X10 : Nat := 0x300f
def MEDIA_BUS_FMT_SGRBG10_1X10 : Nat := 0x300a
def MEDIA_BUS_FMT_SGBRG10_1X10 : Nat := 0x300e
def MEDIA_BUS_FMT_SBGGR10_1X10 : Nat := 0x3007

/-- Linux errno values used by the driver, as negative returns. -/
def EIO_errno : Int := 5
def EINVAL : Int := 22

/-! ## Data model -/

/-- Analog crop rectangle (struct v4l2_rect). -/
structure Rect where
  left : Nat
  top : Nat
  width : Nat
  height : Nat
  deriving DecidableEq

/-- A register write entry (struct arducam_64mp_reg). -/
structure Reg where
  address : Nat
  val : Nat
  deriving DecidableEq

/-- One capture mode (struct arducam_64mp_mode).  The per-mode register list
is static table data and is passed separately to the operations that use it. -/
structure Mode where
  width : Nat
  height : Nat
  line_length_pix : Nat
  crop : Rect
  tpf_numerator : Nat
  tpf_denominator : Nat
  deriving DecidableEq

/-- A v4l2 integer control: range, step, default and current value. -/
structure Ctrl where
  minimum : Int
  maximum : Int
  step : Int
  default_value : Int
  val : Int
  deriving DecidableEq

/-- The i2c write transport, modelled as a log of applied writes
(address, byte width, value) plus the set of write-attempt indices that
fail with -EIO_errno.  `count` is the number of write attempts made so far. -/
structure Bus where
  log : List (Nat × Nat × Nat)
  failures : List Nat
  count : Nat
  deriving DecidableEq

/-- The mutable driver state (struct arducam_64mp), restricted to the fields
the control logic reads or writes. -/
structure DeviceState where
  mode : Mode
  fmt_code : Nat
  streaming : Bool
  common_regs_written : Bool
  long_exp_shift : Nat
  powered : Bool
  flips_grabbed : Bool
  exposure : Ctrl
  analogue_gain : Ctrl
  digital_gain : Ctrl
  hflip : Ctrl
  vflip : Ctrl
  vblank : Ctrl
  hblank : Ctrl
  test_pattern : Ctrl
  test_pattern_red : Ctrl
  test_pattern_greenr : Ctrl
  test_pattern_blue : Ctrl
  test_pattern_greenb : Ctrl
  deriving DecidableEq

/-- Driver state together with the bus it writes through. -/
structure Sensor where
  dev : DeviceState
  bus : Bus
  deriving DecidableEq

/-! ## Register access -/

/-- arducam_64mp_write_reg: write a `len`-byte big-endian value.  The bytes
actually sent are the value reduced modulo 2^(8*len); a failed transfer
returns -EIO_errno and applies nothing. -/
def arducam_64mp_write_reg (s : Sensor) (reg len val : Nat) : Int × Sensor :=
  if 4 < len then (-EINVAL, s)
  else
    let attempt := s.bus.count
    let bus1 : Bus := { s.bus with count := attempt + 1 }
    if bus1.failures.contains attempt then
      (-EIO_errno, { s with bus := bus1 })
    else
      (0, { s with bus :=
        { bus1 with log := bus1.log ++ [(reg, len, val % 2 ^ (8 * len))] } })

/-- arducam_64mp_write_regs: apply a register list in order, one byte per
entry, stopping at the first failing write and returning its error. -/
def arducam_64mp_write_regs (s : Sensor) : List Reg → Int × Sensor
  | [] => (0, s)
  | r :: rest =>
    let p := arducam_64mp_write_reg s r.address 1 r.val
    if p.1 ≠ 0 then p
    else arducam_64mp_write_regs p.2 rest

/-! ## Format code lookup -/

/-- The supported formats table: 4 entries per format, covering the flip
combinations in the order no flip, h flip, v flip, h and v flips. -/
def codes : List Nat :=
  [MEDIA_BUS_FMT_SRGGB10_1X10, MEDIA_BUS_FMT_SGRBG10_1X10,
   MEDIA_BUS_FMT_SGBRG10_1X10, MEDIA_BUS_FMT_SBGGR10_1X10]

/-- arducam_64mp_get_format_code: bayer order based on flip settings. -/
def arducam_64mp_get_format_code (s : Sensor) : Nat :=
  let i := (if s.dev.vflip.val ≠ 0 then 2 else 0) |||
           (if s.dev.hflip.val ≠ 0 then 1 else 0)
  codes.getD i 0

/-! ## Timing/exposure coordinator -/

/-- The long-exposure loop of arducam_64mp_set_frame_length: halve `val` and
bump `shift` while `val` exceeds the 16-bit frame-length register range. -/
def long_exp_loop (val shift : Nat) : Nat × Nat :=
  if h : ARDUCAM_64MP_FRAME_LENGTH_MAX < val then
    long_exp_loop (val / 2) (shift + 1)
  else
    (val, shift)
termination_by val
decreasing_by
  exact Nat.div_lt_self (by unfold ARDUCAM_64MP_FRAME_LENGTH_MAX at h; omega) (by omega)

/-- arducam_64mp_set_frame_length: compute the frame length and long-exposure
shift from the requested vblank, store the shift, then write the frame-length
register (16-bit) followed by the shift register (8-bit). -/
def arducam_64mp_set_frame_length (s : Sensor) (vblank : Nat) : Int × Sensor :=
  let p := long_exp_loop (vblank + s.dev.mode.height) 0
  let s1 : Sensor := { s with dev := { s.dev with long_exp_shift := p.2 } }
  let w1 := arducam_64mp_write_reg s1 ARDUCAM_64MP_REG_FRAME_LENGTH
              ARDUCAM_64MP_REG_VALUE_16BIT p.1
  if w1.1 ≠ 0 then w1
  else arducam_64mp_write_reg w1.2 ARDUCAM_64MP_LONG_EXP_SHIFT_REG
         ARDUCAM_64MP_REG_VALUE_08BIT w1.2.dev.long_exp_shift

/-- Modelled from the spec: missing framework primitive __v4l2_ctrl_modify_range
(the host control framework is an external collaborator).  It installs the new
minimum, maximum, step and default of a control and clamps the control's
current value into the new range. -/
def v4l2_ctrl_modify_range (c : Ctrl) (mn mx st df : Int) : Ctrl :=
  { minimum := mn, maximum := mx, step := st, default_value := df,
    val := min mx (max mn c.val) }

/-- arducam_64mp_adjust_exposure_range: honour the VBLANK limits when setting
exposure; the new exposure maximum is mode.height + vblank - EXPOSURE_OFFSET
and the current exposure value is clamped into the new range. -/
def arducam_64mp_adjust_exposure_range (s : Sensor) : Sensor :=
  let exposure_max : Int :=
    (s.dev.mode.height : Int) + s.dev.vblank.val - ARDUCAM_64MP_EXPOSURE_OFFSET
  let exposure_def : Int := min exposure_max s.dev.exposure.val
  { s with dev := { s.dev with
      exposure := v4l2_ctrl_modify_range s.dev.exposure s.dev.exposure.minimum
                    exposure_max s.dev.exposure.step exposure_def } }

/-! ## Control surface -/

/-- The control ids the driver's s_ctrl handler dispatches on. -/
inductive CtrlId where
  | analogueGain
  | exposure
  | digitalGain
  | testPattern
  | testPatternRed
  | testPatternGreenR
  | testPatternBlue
  | testPatternGreenB
  | hflip
  | vflip
  | vblank
  deriving DecidableEq

/-- arducam_64mp_test_pattern_val: menu index to register value. -/
def arducam_64mp_test_pattern_val : List Nat := [0, 2, 1, 3, 4]

/-- arducam_64mp_set_ctrl: the driver's s_ctrl hook.  A VBLANK edit first
re-derives the exposure range; if the device is not powered the new value is
only recorded (return 0, no register write); otherwise the control value is
written to the corresponding register. -/
def arducam_64mp_set_ctrl (s0 : Sensor) (id : CtrlId) : Int × Sensor :=
  let s := if id = CtrlId.vblank then arducam_64mp_adjust_exposure_range s0 else s0
  if s.dev.powered = false then (0, s)
  else
    match id with
    | CtrlId.analogueGain =>
        arducam_64mp_write_reg s ARDUCAM_64MP_REG_ANALOG_GAIN
          ARDUCAM_64MP_REG_VALUE_16BIT s.dev.analogue_gain.val.toNat
    | CtrlId.exposure =>
        arducam_64mp_write_reg s ARDUCAM_64MP_REG_EXPOSURE
          ARDUCAM_64MP_REG_VALUE_16BIT
          (s.dev.exposure.val.toNat >>> s.dev.long_exp_shift)
    | CtrlId.digitalGain =>
        arducam_64mp_write_reg s ARDUCAM_64MP_REG_DIGITAL_GAIN
          ARDUCAM_64MP_REG_VALUE_16BIT s.dev.digital_gain.val.toNat
    | CtrlId.testPattern =>
        arducam_64mp_write_reg s ARDUCAM_64MP_REG_TEST_PATTERN
          ARDUCAM_64MP_REG_VALUE_16BIT
          (arducam_64mp_test_pattern_val.getD s.dev.test_pattern.val.toNat 0)
    | CtrlId.testPatternRed =>
        arducam_64mp_write_reg s ARDUCAM_64MP_REG_TEST_PATTERN_R
          ARDUCAM_64MP_REG_VALUE_16BIT s.dev.test_pattern_red.val.toNat
    | CtrlId.testPatternGreenR =>
        arducam_64mp_write_reg s ARDUCAM_64MP_REG_TEST_PATTERN_GR
          ARDUCAM_64MP_REG_VALUE_16BIT s.dev.test_pattern_greenr.val.toNat
    | CtrlId.testPatternBlue =>
        arducam_64mp_write_reg s ARDUCAM_64MP_REG_TEST_PATTERN_B
          ARDUCAM_64MP_REG_VALUE_16BIT s.dev.test_pattern_blue.val.toNat
    | CtrlId.testPatternGreenB =>
        arducam_64mp_write_reg s ARDUCAM_64MP_REG_TEST_PATTERN_GB
          ARDUCAM_64MP_REG_VALUE_16BIT s.dev.test_pattern_greenb.val.toNat
    | CtrlId.hflip =>
        arducam_64mp_write_reg s ARDUCAM_64MP_REG_ORIENTATION 1
          (s.dev.hflip.val.toNat ||| (s.dev.vflip.val.toNat <<< 1))
    | CtrlId.vflip =>
        arducam_64mp_write_reg s ARDUCAM_64MP_REG_ORIENTATION 1
          (s.dev.hflip.val.toNat ||| (s.dev.vflip.val.toNat <<< 1))
    | CtrlId.vblank =>
        arducam_64mp_set_frame_length s s.dev.vblank.val.toNat

/-- arducam_64mp_get_frame_length: derive the frame length from a frame
interval, capping at the 16-bit register maximum and flooring at the mode
height. -/
def arducam_64mp_get_frame_length (mode : Mode) (numerator denominator : Nat) : Nat :=
  let frame_length := numerator * ARDUCAM_64MP_PIXEL_RATE /
                        (denominator * mode.line_length_pix)
  let capped := if ARDUCAM_64MP_FRAME_LENGTH_MAX < frame_length then
                  ARDUCAM_64MP_FRAME_LENGTH_MAX
                else frame_length
  max capped mode.height

/-- Modelled from the spec: missing framework primitive __v4l2_ctrl_s_ctrl on
the VBLANK control (the host control framework is an external collaborator).
The requested value is clamped into the control's range, recorded, and the
driver s_ctrl hook is invoked. -/
def v4l2_ctrl_s_ctrl_vblank (s : Sensor) (v : Int) : Int × Sensor :=
  let c := s.dev.vblank
  let s1 : Sensor := { s with dev := { s.dev with
    vblank := { c with val := min c.maximum (max c.minimum v) } } }
  arducam_64mp_set_ctrl s1 CtrlId.vblank

/-- arducam_64mp_set_framing_limits: recompute the vblank range from the
mode's default frame interval, set vblank to its default (which cascades into
the exposure range), and pin hblank to line_length_pix - width. -/
def arducam_64mp_set_framing_limits (s : Sensor) : Sensor :=
  let mode := s.dev.mode
  let frm_length_min :=
    arducam_64mp_get_frame_length mode mode.tpf_numerator mode.tpf_denominator
  let frm_length_default :=
    arducam_64mp_get_frame_length mode mode.tpf_numerator mode.tpf_denominator
  let s1 : Sensor := { s with dev := { s.dev with long_exp_shift := 0 } }
  let s2 : Sensor := { s1 with dev := { s1.dev with
    vblank := v4l2_ctrl_modify_range s1.dev.vblank
      ((frm_length_min : Int) - (mode.height : Int))
      (((1 <<< ARDUCAM_64MP_LONG_EXP_SHIFT_MAX) *
          ARDUCAM_64MP_FRAME_LENGTH_MAX : Nat) - (mode.height : Int))
      1
      ((frm_length_default : Int) - (mode.height : Int)) } }
  let s3 := (v4l2_ctrl_s_ctrl_vblank s2
               ((frm_length_default : Int) - (mode.height : Int))).2
  let hblank : Int := (mode.line_length_pix : Int) - (mode.width : Int)
  { s3 with dev := { s3.dev with
    hblank := v4l2_ctrl_modify_range s3.dev.hblank hblank hblank 1 hblank } }

/-! ## Mode catalog and format negotiation -/

/-- The supported_modes table of the driver (geometry and default timing;
the per-mode register lists are static data passed separately). -/
def supported_modes : List Mode :=
  [{ width := 9152, height := 6944, line_length_pix := 0xb6b2,
     crop := { left := ARDUCAM_64MP_PIXEL_ARRAY_LEFT,
               top := ARDUCAM_64MP_PIXEL_ARRAY_TOP,
               width := 9248, height := 6944 },
     tpf_numerator := 100, tpf_denominator := 270 },
   { width := 8000, height := 6000, line_length_pix := 0xb6b2,
     crop := { left := ARDUCAM_64MP_PIXEL_ARRAY_LEFT + 624,
               top := ARDUCAM_64MP_PIXEL_ARRAY_TOP + 472,
               width := 9248, height := 6944 },
     tpf_numerator := 100, tpf_denominator := 300 },
   { width := 4624, height := 3472, line_length_pix := 0x6397,
     crop := { left := ARDUCAM_64MP_PIXEL_ARRAY_LEFT,
               top := ARDUCAM_64MP_PIXEL_ARRAY_TOP,
               width := 9248, height := 6944 },
     tpf_numerator := 100, tpf_denominator := 1000 },
   { width := 3840, height := 2160, line_length_pix := 0x4eb7,
     crop := { left := ARDUCAM_64MP_PIXEL_ARRAY_LEFT + 784,
               top := ARDUCAM_64MP_PIXEL_ARRAY_TOP + 1312,
               width := 7680, height := 4320 },
     tpf_numerator := 100, tpf_denominator := 2000 },
   { width := 2312, height := 1736, line_length_pix := 0x3360,
     crop := { left := ARDUCAM_64MP_PIXEL_ARRAY_LEFT,
               top := ARDUCAM_64MP_PIXEL_ARRAY_TOP,
               width := 9248, height := 6944 },
     tpf_numerator := 100, tpf_denominator := 3000 },
   { width := 1920, height := 1080, line_length_pix := 0x29e3,
     crop := { left := ARDUCAM_64MP_PIXEL_ARRAY_LEFT + 784,
               top := ARDUCAM_64MP_PIXEL_ARRAY_TOP + 1312,
               width := 7680, height := 4320 },
     tpf_numerator := 100, tpf_denominator := 6000 },
   { width := 1280, height := 720, line_length_pix := 0x1b08,
     crop := { left := ARDUCAM_64MP_PIXEL_ARRAY_LEFT + 2064,
               top := ARDUCAM_64MP_PIXEL_ARRAY_TOP + 2032,
               width := 5120, height := 2880 },
     tpf_numerator := 100, tpf_denominator := 12000 }]

/-- Total dimension distance of a mode to a requested (width, height). -/
def dimension_distance (m : Mode) (w h : Nat) : Nat :=
  (max m.width w - min m.width w) + (max m.height h - min m.height h)

/-- Scan helper for the nearest-size search: keep the running best, replacing
it only when a later entry is strictly nearer. -/
def find_nearest_go (w h : Nat) (best : Mode) : List Mode → Mode
  | [] => best
  | m :: rest =>
      find_nearest_go w h
        (if dimension_distance m w h < dimension_distance best w h then m else best)
        rest

/-- Modelled from the spec: missing framework helper v4l2_find_nearest_size
(the host capture-pipeline framework is an external collaborator).  Scans the
catalog in order, minimising the symmetric distance over both dimensions;
ties are resolved by catalog order, first match wins. -/
def v4l2_find_nearest_size (w h : Nat) : List Mode → Option Mode
  | [] => none
  | m :: rest => some (find_nearest_go w h m rest)

/-- arducam_64mp_set_pad_format, image pad, active case: negotiate the
nearest mode, record it together with the flip-dependent format code, and
re-derive the framing limits. -/
def arducam_64mp_set_pad_format (s : Sensor) (w h : Nat) : Int × Sensor :=
  match v4l2_find_nearest_size w h supported_modes with
  | none => (-EINVAL, s)
  | some mode =>
      let code := arducam_64mp_get_format_code s
      let s1 : Sensor := { s with dev := { s.dev with mode := mode, fmt_code := code } }
      (0, arducam_64mp_set_framing_limits s1)

/-! ## Streaming state machine -/

/-- Registration order of the non-read-only controls; the framework replay
skips the read-only PIXEL_RATE, LINK_FREQ and HBLANK controls. -/
def ctrl_replay_order : List CtrlId :=
  [CtrlId.vblank, CtrlId.exposure, CtrlId.analogueGain, CtrlId.digitalGain,
   CtrlId.hflip, CtrlId.vflip, CtrlId.testPattern, CtrlId.testPatternRed,
   CtrlId.testPatternGreenR, CtrlId.testPatternBlue, CtrlId.testPatternGreenB]

/-- Modelled from the spec: missing framework primitive
__v4l2_ctrl_handler_setup (the host control framework is an external
collaborator).  Replays every current control value through the driver's
s_ctrl hook in registration order, stopping at the first error. -/
def v4l2_ctrl_handler_setup (s : Sensor) : List CtrlId → Int × Sensor
  | [] => (0, s)
  | id :: rest =>
      let p := arducam_64mp_set_ctrl s id
      if p.1 ≠ 0 then p
      else v4l2_ctrl_handler_setup p.2 rest

/-- arducam_64mp_start_streaming: write the common register block once per
power cycle, then the mode register list, then replay all control values,
then write the streaming value to the mode-select register.  Any failure
aborts the sequence and is returned. -/
def arducam_64mp_start_streaming (s : Sensor)
    (common_regs mode_regs : List Reg) : Int × Sensor :=
  let step1 : Int × Sensor :=
    if s.dev.common_regs_written then (0, s)
    else
      let p := arducam_64mp_write_regs s common_regs
      if p.1 ≠ 0 then p
      else (0, { p.2 with dev := { p.2.dev with common_regs_written := true } })
  if step1.1 ≠ 0 then step1
  else
    let step2 := arducam_64mp_write_regs step1.2 mode_regs
    if step2.1 ≠ 0 then step2
    else
      let step3 := v4l2_ctrl_handler_setup step2.2 ctrl_replay_order
      if step3.1 ≠ 0 then step3
      else arducam_64mp_write_reg step3.2 ARDUCAM_64MP_REG_MODE_SELECT
             ARDUCAM_64MP_REG_VALUE_08BIT ARDUCAM_64MP_MODE_STREAMING

/-- arducam_64mp_stop_streaming: best-effort write of the standby value to the
mode-select register; an error is logged but not propagated. -/
def arducam_64mp_stop_streaming (s : Sensor) : Sensor :=
  (arducam_64mp_write_reg s ARDUCAM_64MP_REG_MODE_SELECT
     ARDUCAM_64MP_REG_VALUE_08BIT ARDUCAM_64MP_MODE_STANDBY).2

/-- arducam_64mp_set_stream: no-op when the requested state equals the current
one; otherwise power up and start (failure keeps the not-streaming state and
surfaces the error), or stop and power down.  The flip controls are grabbed
exactly while streaming. -/
def arducam_64mp_set_stream (s : Sensor) (enable : Bool)
    (common_regs mode_regs : List Reg) : Int × Sensor :=
  if s.dev.streaming = enable then (0, s)
  else if enable then
    let sOn : Sensor := { s with dev := { s.dev with powered := true } }
    let p := arducam_64mp_start_streaming sOn common_regs mode_regs
    if p.1 ≠ 0 then (p.1, { p.2 with dev := { p.2.dev with powered := false } })
    else (0, { p.2 with dev := { p.2.dev with
                streaming := true, flips_grabbed := true } })
  else
    let s1 := arducam_64mp_stop_streaming s
    (0, { s1 with dev := { s1.dev with
            powered := false, streaming := false, flips_grabbed := false } })

/-! ## Concrete states used by witnesses and counterexamples -/

/-- A plain control with range 0..0xffff, step 1, value 0. -/
def ctrl0 : Ctrl :=
  { minimum := 0, maximum := 0xffff, step := 1, default_value := 0, val := 0 }

/-- The full-resolution catalog mode, spelled out. -/
def witnessMode : Mode :=
  { width := 9152, height := 6944, line_length_pix := 0xb6b2,
    crop := { left := 48, top := 40, width := 9248, height := 6944 },
    tpf_numerator := 100, tpf_denominator := 270 }

/-- A powered, idle sensor on a bus where every write succeeds. -/
def witnessSensor : Sensor :=
  { dev := { mode := witnessMode, fmt_code := MEDIA_BUS_FMT_SRGGB10_1X10,
             streaming := false, common_regs_written := false,
             long_exp_shift := 0, powered := true, flips_grabbed := false,
             exposure := { minimum := ARDUCAM_64MP_EXPOSURE_MIN,
                           maximum := 65487, step := 1,
                           default_value := ARDUCAM_64MP_EXPOSURE_DEFAULT,
                           val := 1000 },
             analogue_gain := ctrl0, digital_gain := ctrl0,
             hflip := ctrl0, vflip := ctrl0,
             vblank := { minimum := 0, maximum := 0x7fff80, step := 1,
                         default_value := 0, val := 100 },
             hblank := ctrl0, test_pattern := ctrl0,
             test_pattern_red := ctrl0, test_pattern_greenr := ctrl0,
             test_pattern_blue := ctrl0, test_pattern_greenb := ctrl0 },
    bus := { log := [], failures := [], count := 0 } }

/-- Like witnessSensor but with a stale stored long-exposure shift and a bus
whose first write attempt fails. -/
def failFirstSensor : Sensor :=
  { witnessSensor with
    dev := { witnessSensor.dev with long_exp_shift := 5 },
    bus := { log := [], failures := [0], count := 0 } }

/-- Like witnessSensor but the second write attempt fails. -/
def failSecondSensor : Sensor :=
  { witnessSensor with
    bus := { log := [], failures := [1], count := 0 } }

/-- Like witnessSensor but not powered. -/
def unpoweredSensor : Sensor :=
  { witnessSensor with
    dev := { witnessSensor.dev with powered := false } }

/-- A small register list used by concrete scenarios. -/
def witnessRegs : List Reg :=
  [{ address := 0x10, val := 0xaa },
   { address := 0x11, val := 0xbb },
   { address := 0x12, val := 0xcc }]

/-! ## Helper lemmas -/

theorem long_exp_loop_of_le (val shift : Nat)
    (h : val ≤ ARDUCAM_64MP_FRAME_LENGTH_MAX) :
    long_exp_loop val shift = (val, shift) := by
  rw [long_exp_loop]
  simp [Nat.not_lt.mpr h]

theorem long_exp_loop_of_lt (val shift : Nat)
    (h : ARDUCAM_64MP_FRAME_LENGTH_MAX < val) :
    long_exp_loop val shift = long_exp_loop (val / 2) (shift + 1) := by
  rw [long_exp_loop]
  simp [h]

/-- The long-exposure loop returns the value shifted by the minimal shift that
brings it into the 16-bit range, and that shift added to the start shift. -/
theorem long_exp_loop_spec (val : Nat) : ∀ shift : Nat,
    ∃ k, long_exp_loop val shift = (val / 2 ^ k, shift + k) ∧
      val / 2 ^ k ≤ ARDUCAM_64MP_FRAME_LENGTH_MAX ∧
      ∀ j, j < k → ARDUCAM_64MP_FRAME_LENGTH_MAX < val / 2 ^ j := by
  induction val using Nat.strong_induction_on with
  | _ val ih =>
    intro shift
    by_cases h : ARDUCAM_64MP_FRAME_LENGTH_MAX < val
    · have hpos : 0 < val := by
        have : (0xffff : Nat) < val := h
        omega
      obtain ⟨k, hk, hle, hmin⟩ :=
        ih (val / 2) (Nat.div_lt_self hpos (by omega)) (shift + 1)
      have hdiv : ∀ j : Nat, val / 2 / 2 ^ j = val / 2 ^ (j + 1) := by
        intro j
        rw [Nat.div_div_eq_div_mul, pow_succ, mul_comm (2 ^ j) 2]
      refine ⟨k + 1, ?_, ?_, ?_⟩
      · rw [long_exp_loop_of_lt val shift h, hk, hdiv k]
        congr 1
        omega
      · rw [← hdiv k]
        exact hle
      · intro j hj
        match j with
        | 0 => simpa using h
        | j' + 1 =>
          rw [← hdiv j']
          exact hmin j' (by omega)
    · refine ⟨0, ?_, ?_, ?_⟩
      · rw [long_exp_loop_of_le val shift (Nat.not_lt.mp h)]
        simp
      · simpa using Nat.not_lt.mp h
      · intro j hj
        omega

theorem write_reg_dev (s : Sensor) (reg len val : Nat) :
    (arducam_64mp_write_reg s reg len val).2.dev = s.dev := by
  unfold arducam_64mp_write_reg
  dsimp only
  split_ifs <;> rfl

theorem write_reg_failures (s : Sensor) (reg len val : Nat) :
    (arducam_64mp_write_reg s reg len val).2.bus.failures = s.bus.failures := by
  unfold arducam_64mp_write_reg
  dsimp only
  split_ifs <;> rfl

theorem write_regs_dev (regs : List Reg) : ∀ s : Sensor,
    (arducam_64mp_write_regs s regs).2.dev = s.dev := by
  induction regs with
  | nil => intro s; rfl
  | cons r rest ih =>
    intro s
    simp only [arducam_64mp_write_regs]
    split
    · exact write_reg_dev s r.address 1 r.val
    · rw [ih, write_reg_dev]

theorem write_reg_ok (s : Sensor) (reg len val : Nat) (hlen : len ≤ 4)
    (h : s.bus.failures.contains s.bus.count = false) :
    arducam_64mp_write_reg s reg len val =
      (0, { s with bus := { s.bus with
              count := s.bus.count + 1,
              log := s.bus.log ++ [(reg, len, val % 2 ^ (8 * len))] } }) := by
  unfold arducam_64mp_write_reg
  simp [Nat.not_lt.mpr hlen, h]
  simpa using h

theorem write_reg_fail (s : Sensor) (reg len val : Nat) (hlen : len ≤ 4)
    (h : s.bus.failures.contains s.bus.count = true) :
    arducam_64mp_write_reg s reg len val =
      (-EIO_errno, { s with bus := { s.bus with count := s.bus.count + 1 } }) := by
  unfold arducam_64mp_write_reg
  simp [Nat.not_lt.mpr hlen, h]
  simpa using h

theorem set_frame_length_dev (t : Sensor) (v : Nat) :
    (arducam_64mp_set_frame_length t v).2.dev =
      { t.dev with long_exp_shift := (long_exp_loop (v + t.dev.mode.height) 0).2 } := by
  unfold arducam_64mp_set_frame_length
  dsimp only
  split
  · rw [write_reg_dev]
  · rw [write_reg_dev, write_reg_dev]

theorem set_frame_length_fail_log (t : Sensor) (v : Nat)
    (h : t.bus.failures.contains t.bus.count = true) :
    (arducam_64mp_set_frame_length t v).2.bus.log = t.bus.log := by
  unfold arducam_64mp_set_frame_length
  dsimp only
  rw [write_reg_fail _ _ _ _ (by rw [ARDUCAM_64MP_REG_VALUE_16BIT]; omega)
        (by simpa using h)]
  norm_num [EIO_errno]

/-- The s_ctrl hook never touches the mode, streaming flag, common-register
flag or power state. -/
theorem set_ctrl_preserves (s : Sensor) (id : CtrlId) :
    (arducam_64mp_set_ctrl s id).2.dev.mode = s.dev.mode ∧
    (arducam_64mp_set_ctrl s id).2.dev.streaming = s.dev.streaming ∧
    (arducam_64mp_set_ctrl s id).2.dev.common_regs_written =
      s.dev.common_regs_written ∧
    (arducam_64mp_set_ctrl s id).2.dev.powered = s.dev.powered := by
  cases id <;>
    · simp only [arducam_64mp_set_ctrl]
      split_ifs <;>
        simp [write_reg_dev, set_frame_length_dev,
              arducam_64mp_adjust_exposure_range]

/-- The framework control replay never touches the mode, streaming flag,
common-register flag or power state. -/
theorem ctrl_handler_setup_preserves (ids : List CtrlId) : ∀ s : Sensor,
    (v4l2_ctrl_handler_setup s ids).2.dev.mode = s.dev.mode ∧
    (v4l2_ctrl_handler_setup s ids).2.dev.streaming = s.dev.streaming ∧
    (v4l2_ctrl_handler_setup s ids).2.dev.common_regs_written =
      s.dev.common_regs_written ∧
    (v4l2_ctrl_handler_setup s ids).2.dev.powered = s.dev.powered := by
  induction ids with
  | nil => intro s; exact ⟨rfl, rfl, rfl, rfl⟩
  | cons id rest ih =>
    intro s
    simp only [v4l2_ctrl_handler_setup]
    split
    · exact set_ctrl_preserves s id
    · obtain ⟨m, st, c, p⟩ := ih (arducam_64mp_set_ctrl s id).2
      obtain ⟨m', st', c', p'⟩ := set_ctrl_preserves s id
      exact ⟨m.trans m', st.trans st', c.trans c', p.trans p'⟩

/-- start_streaming never touches the streaming flag itself. -/
theorem start_streaming_streaming (s : Sensor) (cr mr : List Reg) :
    (arducam_64mp_start_streaming s cr mr).2.dev.streaming = s.dev.streaming := by
  unfold arducam_64mp_start_streaming
  dsimp only
  by_cases hc : s.dev.common_regs_written = true
  · rw [if_pos hc, if_neg (by norm_num)]
    by_cases h2 : (arducam_64mp_write_regs s mr).1 ≠ 0
    · rw [if_pos h2, write_regs_dev]
    · rw [if_neg h2]
      by_cases h3 : (v4l2_ctrl_handler_setup
          (arducam_64mp_write_regs s mr).2 ctrl_replay_order).1 ≠ 0
      · rw [if_pos h3, (ctrl_handler_setup_preserves _ _).2.1, write_regs_dev]
      · rw [if_neg h3, write_reg_dev,
            (ctrl_handler_setup_preserves _ _).2.1, write_regs_dev]
  · rw [if_neg hc]
    by_cases h1 : (arducam_64mp_write_regs s cr).1 ≠ 0
    · rw [if_pos h1, if_pos h1, write_regs_dev]
    · rw [if_neg h1, if_neg (by norm_num)]
      by_cases h2 : (arducam_64mp_write_regs
          { (arducam_64mp_write_regs s cr).2 with
            dev := { (arducam_64mp_write_regs s cr).2.dev with
                     common_regs_written := true } } mr).1 ≠ 0
      · rw [if_pos h2, write_regs_dev]
        show (arducam_64mp_write_regs s cr).2.dev.streaming = s.dev.streaming
        rw [write_regs_dev]
      · rw [if_neg h2]
        by_cases h3 : (v4l2_ctrl_handler_setup (arducam_64mp_write_regs
            { (arducam_64mp_write_regs s cr).2 with
              dev := { (arducam_64mp_write_regs s cr).2.dev with
                       common_regs_written := true } } mr).2 ctrl_replay_order).1 ≠ 0
        · rw [if_pos h3, (ctrl_handler_setup_preserves _ _).2.1, write_regs_dev]
          show (arducam_64mp_write_regs s cr).2.dev.streaming = s.dev.streaming
          rw [write_regs_dev]
        · rw [if_neg h3, write_reg_dev,
              (ctrl_handler_setup_preserves _ _).2.1, write_regs_dev]
          show (arducam_64mp_write_regs s cr).2.dev.streaming = s.dev.streaming
          rw [write_regs_dev]

/-- When the common registers are unwritten and their block fails to write,
start_streaming is exactly that failed list write. -/
theorem start_streaming_common_fail (s : Sensor) (cr mr : List Reg)
    (hc : s.dev.common_regs_written = false)
    (hw : (arducam_64mp_write_regs s cr).1 ≠ 0) :
    arducam_64mp_start_streaming s cr mr = arducam_64mp_write_regs s cr := by
  have hc' : ¬ (s.dev.common_regs_written = true) := by simp [hc]
  unfold arducam_64mp_start_streaming
  dsimp only
  rw [if_neg hc', if_pos hw, if_pos hw]

/-- Invariant of the nearest-size scan: either the running best survives and
is no farther than every scanned entry, or the scan returns the first entry
that strictly beats the running best and every entry before it, and is no
farther than every entry after it. -/
theorem find_nearest_go_spec (w h : Nat) (l : List Mode) : ∀ best : Mode,
    (find_nearest_go w h best l = best ∧
       ∀ x ∈ l, dimension_distance best w h ≤ dimension_distance x w h) ∨
    (∃ l1 x l2, l = l1 ++ x :: l2 ∧ find_nearest_go w h best l = x ∧
       dimension_distance x w h < dimension_distance best w h ∧
       (∀ y ∈ l1, dimension_distance x w h < dimension_distance y w h) ∧
       (∀ y ∈ l2, dimension_distance x w h ≤ dimension_distance y w h)) := by
  induction l with
  | nil =>
    intro best
    exact Or.inl ⟨rfl, by simp⟩
  | cons m rest ih =>
    intro best
    simp only [find_nearest_go]
    by_cases hlt : dimension_distance m w h < dimension_distance best w h
    · rw [if_pos hlt]
      rcases ih m with ⟨hgo, hall⟩ | ⟨l1, x, l2, hsplit, hgo, hx, hl1, hl2⟩
      · right
        refine ⟨[], m, rest, by simp, hgo, hlt, by simp, ?_⟩
        intro y hy
        exact hall y hy
      · right
        refine ⟨m :: l1, x, l2, by simp [hsplit], hgo, hx.trans hlt, ?_, hl2⟩
        intro y hy
        rcases List.mem_cons.mp hy with rfl | hy1
        · exact hx
        · exact hl1 y hy1
    · rw [if_neg hlt]
      have hbm : dimension_distance best w h ≤ dimension_distance m w h :=
        Nat.not_lt.mp hlt
      rcases ih best with ⟨hgo, hall⟩ | ⟨l1, x, l2, hsplit, hgo, hx, hl1, hl2⟩
      · left
        refine ⟨hgo, ?_⟩
        intro y hy
        rcases List.mem_cons.mp hy with rfl | hy1
        · exact hbm
        · exact hall y hy1
      · right
        refine ⟨m :: l1, x, l2, by simp [hsplit], hgo, hx, ?_, hl2⟩
        intro y hy
        rcases List.mem_cons.mp hy with rfl | hy1
        · exact lt_of_lt_of_le hx hbm
        · exact hl1 y hy1

/-- The nearest-size search on a non-empty catalog returns the earliest entry
of minimal total dimension distance. -/
theorem find_nearest_spec (w h : Nat) (m0 : Mode) (rest : List Mode) :
    ∃ l1 x l2, m0 :: rest = l1 ++ x :: l2 ∧
      v4l2_find_nearest_size w h (m0 :: rest) = some x ∧
      (∀ y ∈ l1, dimension_distance x w h < dimension_distance y w h) ∧
      (∀ y ∈ l2, dimension_distance x w h ≤ dimension_distance y w h) := by
  rcases find_nearest_go_spec w h rest m0 with
    ⟨hgo, hall⟩ | ⟨l1, x, l2, hsplit, hgo, hx, hl1, hl2⟩
  · exact ⟨[], m0, rest, rfl, by simp [v4l2_find_nearest_size, hgo], by simp, hall⟩
  · refine ⟨m0 :: l1, x, l2, by simp [hsplit],
      by simp [v4l2_find_nearest_size, hgo], ?_, hl2⟩
    intro y hy
    rcases List.mem_cons.mp hy with rfl | hy1
    · exact lt_of_lt_of_le hx (le_refl _)
    · exact hl1 y hy1

theorem v4l2_ctrl_s_ctrl_vblank_mode (s : Sensor) (v : Int) :
    (v4l2_ctrl_s_ctrl_vblank s v).2.dev.mode = s.dev.mode := by
  unfold v4l2_ctrl_s_ctrl_vblank
  dsimp only
  rw [(set_ctrl_preserves _ _).1]

theorem set_framing_limits_mode (s : Sensor) :
    (arducam_64mp_set_framing_limits s).dev.mode = s.dev.mode := by
  unfold arducam_64mp_set_framing_limits
  dsimp only
  rw [v4l2_ctrl_s_ctrl_vblank_mode]

/-! ## Claim theorems -/

/-- C1: for every v_blank applied by arducam_64mp_set_frame_length (with both
register writes succeeding and v_blank within the control range), with
raw = v_blank + mode.height, the computed long-exposure shift sh is the
minimum k ≥ 0 such that raw >> k ≤ 0xFFFF; raw >> sh is written to the
16-bit frame-length register, sh to the 8-bit long-exposure-shift register,
and sh is stored in the device state. -/
theorem set_frame_length_long_exposure_spec (s : Sensor) (vblank : Nat)
    (h1 : s.bus.failures.contains s.bus.count = false)
    (h2 : s.bus.failures.contains (s.bus.count + 1) = false)
    (h3 : vblank + s.dev.mode.height ≤
          (1 <<< ARDUCAM_64MP_LONG_EXP_SHIFT_MAX) * ARDUCAM_64MP_FRAME_LENGTH_MAX) :
    ∃ sh,
      arducam_64mp_set_frame_length s vblank =
        (0, { s with
              dev := { s.dev with long_exp_shift := sh },
              bus := { s.bus with
                count := s.bus.count + 1 + 1,
                log := s.bus.log ++
                  [(ARDUCAM_64MP_REG_FRAME_LENGTH, ARDUCAM_64MP_REG_VALUE_16BIT,
                    (vblank + s.dev.mode.height) >>> sh),
                   (ARDUCAM_64MP_LONG_EXP_SHIFT_REG, ARDUCAM_64MP_REG_VALUE_08BIT,
                    sh)] } }) ∧
      (vblank + s.dev.mode.height) >>> sh ≤ ARDUCAM_64MP_FRAME_LENGTH_MAX ∧
      ∀ j, j < sh → ARDUCAM_64MP_FRAME_LENGTH_MAX < (vblank + s.dev.mode.height) >>> j := by
  obtain ⟨k, hk, hle, hmin⟩ := long_exp_loop_spec (vblank + s.dev.mode.height) 0
  have hraw : vblank + s.dev.mode.height ≤ 0x7fff80 := by
    simpa [ARDUCAM_64MP_LONG_EXP_SHIFT_MAX, ARDUCAM_64MP_FRAME_LENGTH_MAX] using h3
  have hk7 : k ≤ 7 := by
    by_contra hgt
    have h7 := hmin 7 (by omega)
    have hcap : (vblank + s.dev.mode.height) / 2 ^ 7 ≤ 0xffff :=
      calc (vblank + s.dev.mode.height) / 2 ^ 7 ≤ 0x7fff80 / 2 ^ 7 :=
            Nat.div_le_div_right hraw
        _ = 0xffff := by norm_num
    rw [ARDUCAM_64MP_FRAME_LENGTH_MAX] at h7
    omega
  have hmod16 : (vblank + s.dev.mode.height) / 2 ^ k % 2 ^ (8 * 2) =
      (vblank + s.dev.mode.height) / 2 ^ k := by
    apply Nat.mod_eq_of_lt
    rw [ARDUCAM_64MP_FRAME_LENGTH_MAX] at hle
    omega
  have hmod8 : k % 2 ^ (8 * 1) = k := Nat.mod_eq_of_lt (by omega)
  refine ⟨k, ?_, ?_, ?_⟩
  · unfold arducam_64mp_set_frame_length
    rw [hk]
    dsimp only
    rw [write_reg_ok _ _ _ _ (by rw [ARDUCAM_64MP_REG_VALUE_16BIT]; omega) (by simpa using h1)]
    dsimp only
    rw [if_neg (by simp)]
    rw [write_reg_ok _ _ _ _ (by rw [ARDUCAM_64MP_REG_VALUE_08BIT]; omega) (by simpa using h2)]
    simp only [ARDUCAM_64MP_REG_VALUE_16BIT, ARDUCAM_64MP_REG_VALUE_08BIT]
      at hmod16 hmod8 ⊢
    rw [hmod16]
    simp [Nat.shiftRight_eq_div_pow, hmod8]
    omega
  · rw [Nat.shiftRight_eq_div_pow]
    exact hle
  · intro j hj
    rw [Nat.shiftRight_eq_div_pow]
    exact hmin j hj

/-- Witness for C1: v_blank = 193056 on the 6944-line mode gives
raw = 200000 and shift 2, with 50000 written to the frame-length register. -/
theorem set_frame_length_long_exposure_spec_witness :
    witnessSensor.bus.failures.contains witnessSensor.bus.count = false ∧
    witnessSensor.bus.failures.contains (witnessSensor.bus.count + 1) = false ∧
    193056 + witnessSensor.dev.mode.height ≤
      (1 <<< ARDUCAM_64MP_LONG_EXP_SHIFT_MAX) * ARDUCAM_64MP_FRAME_LENGTH_MAX ∧
    (∃ sh,
      arducam_64mp_set_frame_length witnessSensor 193056 =
        (0, { witnessSensor with
              dev := { witnessSensor.dev with long_exp_shift := sh },
              bus := { witnessSensor.bus with
                count := witnessSensor.bus.count + 1 + 1,
                log := witnessSensor.bus.log ++
                  [(ARDUCAM_64MP_REG_FRAME_LENGTH, ARDUCAM_64MP_REG_VALUE_16BIT,
                    (193056 + witnessSensor.dev.mode.height) >>> sh),
                   (ARDUCAM_64MP_LONG_EXP_SHIFT_REG, ARDUCAM_64MP_REG_VALUE_08BIT,
                    sh)] } }) ∧
      (193056 + witnessSensor.dev.mode.height) >>> sh ≤
        ARDUCAM_64MP_FRAME_LENGTH_MAX ∧
      ∀ j, j < sh →
        ARDUCAM_64MP_FRAME_LENGTH_MAX <
          (193056 + witnessSensor.dev.mode.height) >>> j) :=
  ⟨by decide, by decide, by decide,
   set_frame_length_long_exposure_spec witnessSensor 193056
     (by decide) (by decide) (by decide)⟩

/-- C2: a VBLANK control edit re-derives the exposure maximum as
mode.height + v_blank - EXPOSURE_OFFSET and clamps the exposure's current
value into the new range before any device register write occurs: the clamp
is in place in the final state even when the very first bus write fails, in
which case the write log is untouched. -/
theorem vblank_adjusts_exposure_range (s : Sensor) :
    ((arducam_64mp_set_ctrl s CtrlId.vblank).2.dev.exposure.maximum =
       (s.dev.mode.height : Int) + s.dev.vblank.val - ARDUCAM_64MP_EXPOSURE_OFFSET) ∧
    ((arducam_64mp_set_ctrl s CtrlId.vblank).2.dev.exposure.val =
       min ((s.dev.mode.height : Int) + s.dev.vblank.val - ARDUCAM_64MP_EXPOSURE_OFFSET)
         (max s.dev.exposure.minimum s.dev.exposure.val)) ∧
    (s.bus.failures.contains s.bus.count = true →
       (arducam_64mp_set_ctrl s CtrlId.vblank).2.bus.log = s.bus.log) := by
  have hadj : arducam_64mp_set_ctrl s CtrlId.vblank =
      (if (arducam_64mp_adjust_exposure_range s).dev.powered = false then
         (0, arducam_64mp_adjust_exposure_range s)
       else
         arducam_64mp_set_frame_length (arducam_64mp_adjust_exposure_range s)
           (arducam_64mp_adjust_exposure_range s).dev.vblank.val.toNat) := rfl
  rw [hadj]
  split
  · refine ⟨rfl, rfl, fun _ => rfl⟩
  · refine ⟨?_, ?_, ?_⟩
    · rw [set_frame_length_dev]
      simp [arducam_64mp_adjust_exposure_range, v4l2_ctrl_modify_range]
    · rw [set_frame_length_dev]
      simp [arducam_64mp_adjust_exposure_range, v4l2_ctrl_modify_range]
    · intro h
      exact set_frame_length_fail_log _ _ h

/-- Witness for C2 at a concrete sensor whose first bus write fails: the
exposure range is re-derived and the log stays untouched. -/
theorem vblank_adjusts_exposure_range_witness :
    ((arducam_64mp_set_ctrl failFirstSensor CtrlId.vblank).2.dev.exposure.maximum =
       (failFirstSensor.dev.mode.height : Int) + failFirstSensor.dev.vblank.val -
         ARDUCAM_64MP_EXPOSURE_OFFSET) ∧
    ((arducam_64mp_set_ctrl failFirstSensor CtrlId.vblank).2.dev.exposure.val =
       min ((failFirstSensor.dev.mode.height : Int) + failFirstSensor.dev.vblank.val -
              ARDUCAM_64MP_EXPOSURE_OFFSET)
         (max failFirstSensor.dev.exposure.minimum failFirstSensor.dev.exposure.val)) ∧
    (failFirstSensor.bus.failures.contains failFirstSensor.bus.count = true →
       (arducam_64mp_set_ctrl failFirstSensor CtrlId.vblank).2.bus.log =
         failFirstSensor.bus.log) :=
  vblank_adjusts_exposure_range failFirstSensor

/-- C3 counterexample: on a sensor whose stored shift is 5 and whose first
write attempt fails, arducam_64mp_set_frame_length returns -EIO_errno with nothing
written to the bus, yet the stored long-exposure shift has already been
overwritten with the newly computed 0: the failure does not abort before the
shift is persisted into DeviceState. -/
theorem set_frame_length_fail_persists_shift :
    failFirstSensor.dev.long_exp_shift = 5 ∧
    (arducam_64mp_set_frame_length failFirstSensor 100).1 = -EIO_errno ∧
    (arducam_64mp_set_frame_length failFirstSensor 100).2.bus.log =
      failFirstSensor.bus.log ∧
    (arducam_64mp_set_frame_length failFirstSensor 100).2.dev.long_exp_shift = 0 := by
  have hv : (100 : Nat) + failFirstSensor.dev.mode.height ≤
      ARDUCAM_64MP_FRAME_LENGTH_MAX := by decide
  have hloop := long_exp_loop_of_le _ 0 hv
  have hcalc : arducam_64mp_set_frame_length failFirstSensor 100 =
      (-EIO_errno, { failFirstSensor with
               dev := { failFirstSensor.dev with long_exp_shift := 0 },
               bus := { failFirstSensor.bus with
                        count := failFirstSensor.bus.count + 1 } }) := by
    unfold arducam_64mp_set_frame_length
    rw [hloop]
    dsimp only
    rw [write_reg_fail _ _ _ _ (by rw [ARDUCAM_64MP_REG_VALUE_16BIT]; omega)
          (by decide)]
    norm_num [EIO_errno]
  rw [hcalc]
  exact ⟨rfl, rfl, rfl, rfl⟩

/-- C3 amended: the computed shift is persisted into DeviceState before any
register write (so a failing frame-length write still leaves the new shift
stored); and when the shift-register write fails after a successful
frame-length write, the stored shift still matches the shift used for the
value actually written to the frame-length register. -/
theorem set_frame_length_shift_persisted (s : Sensor) (vblank : Nat) :
    ((arducam_64mp_set_frame_length s vblank).2.dev.long_exp_shift =
       (long_exp_loop (vblank + s.dev.mode.height) 0).2) ∧
    (s.bus.failures.contains s.bus.count = false →
     s.bus.failures.contains (s.bus.count + 1) = true →
     (arducam_64mp_set_frame_length s vblank).1 = -EIO_errno ∧
     (arducam_64mp_set_frame_length s vblank).2.bus.log =
       s.bus.log ++
         [(ARDUCAM_64MP_REG_FRAME_LENGTH, ARDUCAM_64MP_REG_VALUE_16BIT,
           ((vblank + s.dev.mode.height) >>>
              (arducam_64mp_set_frame_length s vblank).2.dev.long_exp_shift) %
             2 ^ (8 * ARDUCAM_64MP_REG_VALUE_16BIT))]) := by
  obtain ⟨k, hk, hle, hmin⟩ := long_exp_loop_spec (vblank + s.dev.mode.height) 0
  have hdev := set_frame_length_dev s vblank
  refine ⟨by rw [hdev], ?_⟩
  intro h1 h2
  have hsh : (arducam_64mp_set_frame_length s vblank).2.dev.long_exp_shift = k := by
    rw [hdev]
    show (long_exp_loop (vblank + s.dev.mode.height) 0).2 = k
    rw [hk]
    omega
  rw [hsh]
  unfold arducam_64mp_set_frame_length
  rw [hk]
  dsimp only
  rw [write_reg_ok _ _ _ _ (by rw [ARDUCAM_64MP_REG_VALUE_16BIT]; omega)
        (by simpa using h1)]
  dsimp only
  rw [if_neg (by simp)]
  rw [write_reg_fail _ _ _ _ (by rw [ARDUCAM_64MP_REG_VALUE_08BIT]; omega)
        (by simpa using h2)]
  refine ⟨rfl, ?_⟩
  simp [Nat.shiftRight_eq_div_pow]

/-- Witness for the amended C3 at a concrete sensor whose second write
attempt fails. -/
theorem set_frame_length_shift_persisted_witness :
    ((arducam_64mp_set_frame_length failSecondSensor 100).2.dev.long_exp_shift =
       (long_exp_loop (100 + failSecondSensor.dev.mode.height) 0).2) ∧
    (failSecondSensor.bus.failures.contains failSecondSensor.bus.count = false →
     failSecondSensor.bus.failures.contains (failSecondSensor.bus.count + 1) = true →
     (arducam_64mp_set_frame_length failSecondSensor 100).1 = -EIO_errno ∧
     (arducam_64mp_set_frame_length failSecondSensor 100).2.bus.log =
       failSecondSensor.bus.log ++
         [(ARDUCAM_64MP_REG_FRAME_LENGTH, ARDUCAM_64MP_REG_VALUE_16BIT,
           ((100 + failSecondSensor.dev.mode.height) >>>
              (arducam_64mp_set_frame_length failSecondSensor 100).2.dev.long_exp_shift) %
             2 ^ (8 * ARDUCAM_64MP_REG_VALUE_16BIT))]) :=
  set_frame_length_shift_persisted failSecondSensor 100

/-- C5: for flips in {0,1}^2 the pixel-encoding code returned by the lookup
is the entry at index 2*v_flip + h_flip of the fixed 4-entry codes ordering,
and repeated queries without intervening flip changes return the same code. -/
theorem get_format_code_spec (s t : Sensor)
    (hs0 : s.dev.hflip.val = 0 ∨ s.dev.hflip.val = 1)
    (vs0 : s.dev.vflip.val = 0 ∨ s.dev.vflip.val = 1)
    (hh : t.dev.hflip.val = s.dev.hflip.val)
    (hv : t.dev.vflip.val = s.dev.vflip.val) :
    arducam_64mp_get_format_code s =
      codes.getD (2 * s.dev.vflip.val.toNat + s.dev.hflip.val.toNat) 0 ∧
    arducam_64mp_get_format_code t = arducam_64mp_get_format_code s := by
  constructor
  · rcases hs0 with h | h <;> rcases vs0 with v | v <;>
      simp [arducam_64mp_get_format_code, h, v]
  · simp [arducam_64mp_get_format_code, hh, hv]

/-- Witness for C5 at h_flip = 1, v_flip = 1: index 3, the both-flips code. -/
theorem get_format_code_spec_witness :
    (let sflip : Sensor :=
      { witnessSensor with dev := { witnessSensor.dev with
          hflip := { ctrl0 with val := 1 }, vflip := { ctrl0 with val := 1 } } };
    (sflip.dev.hflip.val = 0 ∨ sflip.dev.hflip.val = 1) ∧
    (sflip.dev.vflip.val = 0 ∨ sflip.dev.vflip.val = 1) ∧
    (arducam_64mp_get_format_code sflip =
      codes.getD (2 * sflip.dev.vflip.val.toNat + sflip.dev.hflip.val.toNat) 0 ∧
     arducam_64mp_get_format_code sflip = arducam_64mp_get_format_code sflip)) :=
  ⟨by decide, by decide,
   get_format_code_spec _ _ (by decide) (by decide) rfl rfl⟩

/-- C6: derive_frame_length returns the floor-divided ideal frame length,
capped above at FRAME_LENGTH_MAX and floored below at the mode height. -/
theorem get_frame_length_spec (mode : Mode) (numerator denominator : Nat)
    (_hden : 0 < denominator) (_hllp : 0 < mode.line_length_pix) :
    arducam_64mp_get_frame_length mode numerator denominator =
      max (min (numerator * ARDUCAM_64MP_PIXEL_RATE /
                  (denominator * mode.line_length_pix))
            ARDUCAM_64MP_FRAME_LENGTH_MAX)
        mode.height := by
  unfold arducam_64mp_get_frame_length
  dsimp only
  split <;> omega

/-- Witness for C6 on the full-resolution mode at its default interval
100/270: the ideal length 7124 is inside both bounds. -/
theorem get_frame_length_spec_witness :
    0 < 270 ∧ 0 < witnessMode.line_length_pix ∧
    arducam_64mp_get_frame_length witnessMode 100 270 =
      max (min (100 * ARDUCAM_64MP_PIXEL_RATE / (270 * witnessMode.line_length_pix))
            ARDUCAM_64MP_FRAME_LENGTH_MAX)
        witnessMode.height :=
  ⟨by decide, by decide, get_frame_length_spec witnessMode 100 270 (by decide) (by decide)⟩

/-- C8: calling set_stream with an enable argument equal to the current
streaming flag returns 0 and changes nothing, writing no register. -/
theorem set_stream_idempotent (s : Sensor) (enable : Bool)
    (common_regs mode_regs : List Reg) (h : s.dev.streaming = enable) :
    arducam_64mp_set_stream s enable common_regs mode_regs = (0, s) := by
  unfold arducam_64mp_set_stream
  rw [if_pos h]

/-- Witness for C8: disabling an already-stopped sensor is a no-op. -/
theorem set_stream_idempotent_witness :
    witnessSensor.dev.streaming = false ∧
    arducam_64mp_set_stream witnessSensor false witnessRegs witnessRegs =
      (0, witnessSensor) :=
  ⟨by decide, set_stream_idempotent witnessSensor false witnessRegs witnessRegs (by decide)⟩

/-- C9: write_regs applies entries in the given order and stops at the first
failing entry i, returning its error with exactly entries 0..i-1 applied and
nothing after. -/
theorem write_regs_first_failure (regs : List Reg) : ∀ (s : Sensor) (i : Nat),
    i < regs.length →
    (∀ j, j < i → s.bus.failures.contains (s.bus.count + j) = false) →
    s.bus.failures.contains (s.bus.count + i) = true →
    (arducam_64mp_write_regs s regs).1 = -EIO_errno ∧
    (arducam_64mp_write_regs s regs).2.bus.log =
      s.bus.log ++ (regs.take i).map (fun r => (r.address, 1, r.val % 2 ^ (8 * 1))) ∧
    (arducam_64mp_write_regs s regs).2.bus.count = s.bus.count + i + 1 := by
  induction regs with
  | nil =>
    intro s i hi _ _
    simp at hi
  | cons r rest ih =>
    intro s i hi hok hfail
    match i with
    | 0 =>
      have hf : s.bus.failures.contains s.bus.count = true := by simpa using hfail
      simp only [arducam_64mp_write_regs]
      rw [write_reg_fail _ _ _ _ (by omega) hf]
      norm_num [EIO_errno]
    | j + 1 =>
      have h0 : s.bus.failures.contains s.bus.count = false := by
        simpa using hok 0 (by omega)
      have hok' : ∀ j', j' < j →
          (s.bus.failures.contains (s.bus.count + 1 + j') = false) := by
        intro j' hj'
        have e : s.bus.count + 1 + j' = s.bus.count + (j' + 1) := by omega
        rw [e]
        exact hok (j' + 1) (by omega)
      have hfail' : s.bus.failures.contains (s.bus.count + 1 + j) = true := by
        have e : s.bus.count + 1 + j = s.bus.count + (j + 1) := by omega
        rw [e]
        exact hfail
      obtain ⟨ha, hb, hc⟩ := ih
        { s with bus := { s.bus with
            count := s.bus.count + 1,
            log := s.bus.log ++ [(r.address, 1, r.val % 2 ^ (8 * 1))] } }
        j (by simpa using hi) hok' hfail'
      simp only [arducam_64mp_write_regs]
      rw [write_reg_ok _ _ _ _ (by omega) h0]
      dsimp only
      rw [if_neg (by norm_num)]
      refine ⟨ha, ?_, ?_⟩
      · rw [hb]
        simp
      · rw [hc]
        show s.bus.count + 1 + j + 1 = s.bus.count + (j + 1) + 1
        omega

/-- Witness for C9: three entries on a bus whose second attempt fails apply
exactly the first entry and return -EIO_errno. -/
theorem write_regs_first_failure_witness :
    1 < witnessRegs.length ∧
    (∀ j, j < 1 →
      failSecondSensor.bus.failures.contains (failSecondSensor.bus.count + j) = false) ∧
    failSecondSensor.bus.failures.contains (failSecondSensor.bus.count + 1) = true ∧
    (arducam_64mp_write_regs failSecondSensor witnessRegs).1 = -EIO_errno ∧
    (arducam_64mp_write_regs failSecondSensor witnessRegs).2.bus.log =
      failSecondSensor.bus.log ++
        (witnessRegs.take 1).map (fun r => (r.address, 1, r.val % 2 ^ (8 * 1))) ∧
    (arducam_64mp_write_regs failSecondSensor witnessRegs).2.bus.count =
      failSecondSensor.bus.count + 1 + 1 := by
  refine ⟨by decide, by decide, by decide, ?_⟩
  exact write_regs_first_failure witnessRegs failSecondSensor 1
    (by decide) (by decide) (by decide)

/-- C4: starting the stream from a non-streaming state surfaces exactly
start_streaming's result code; any failure leaves the streaming flag false;
and a failed bus write during common-register programming leaves
common_regs_written false with that error returned. -/
theorem start_streaming_failure_not_streaming (s : Sensor) (cr mr : List Reg)
    (hstream : s.dev.streaming = false) :
    ((arducam_64mp_set_stream s true cr mr).1 =
       (arducam_64mp_start_streaming
          { s with dev := { s.dev with powered := true } } cr mr).1) ∧
    ((arducam_64mp_set_stream s true cr mr).1 ≠ 0 →
       (arducam_64mp_set_stream s true cr mr).2.dev.streaming = false) ∧
    (s.dev.common_regs_written = false →
     (arducam_64mp_write_regs
        { s with dev := { s.dev with powered := true } } cr).1 ≠ 0 →
     (arducam_64mp_set_stream s true cr mr).2.dev.common_regs_written = false ∧
     (arducam_64mp_set_stream s true cr mr).1 =
       (arducam_64mp_write_regs
          { s with dev := { s.dev with powered := true } } cr).1) := by
  have hneq : ¬ (s.dev.streaming = true) := by simp [hstream]
  have hmain : arducam_64mp_set_stream s true cr mr =
      (let p := arducam_64mp_start_streaming
         { s with dev := { s.dev with powered := true } } cr mr;
       if p.1 ≠ 0 then
         (p.1, { p.2 with dev := { p.2.dev with powered := false } })
       else
         (0, { p.2 with dev := { p.2.dev with
                 streaming := true, flips_grabbed := true } })) := by
    unfold arducam_64mp_set_stream
    rw [if_neg hneq, if_pos rfl]
  rw [hmain]
  dsimp only
  by_cases hp : (arducam_64mp_start_streaming
      { s with dev := { s.dev with powered := true } } cr mr).1 ≠ 0
  · rw [if_pos hp]
    refine ⟨rfl, ?_, ?_⟩
    · intro _
      show (arducam_64mp_start_streaming
        { s with dev := { s.dev with powered := true } } cr mr).2.dev.streaming = false
      rw [start_streaming_streaming]
      exact hstream
    · intro hc hw
      have heq := start_streaming_common_fail
        { s with dev := { s.dev with powered := true } } cr mr hc hw
      refine ⟨?_, ?_⟩
      · show (arducam_64mp_start_streaming
          { s with dev := { s.dev with powered := true } } cr mr).2.dev.common_regs_written = false
        rw [heq, write_regs_dev]
        exact hc
      · show (arducam_64mp_start_streaming
          { s with dev := { s.dev with powered := true } } cr mr).1 =
            (arducam_64mp_write_regs
              { s with dev := { s.dev with powered := true } } cr).1
        rw [heq]
  · rw [if_neg hp]
    push_neg at hp
    refine ⟨hp.symm, ?_, ?_⟩
    · intro h0
      exact absurd rfl h0
    · intro hc hw
      have heq := start_streaming_common_fail
        { s with dev := { s.dev with powered := true } } cr mr hc hw
      rw [heq] at hp
      exact absurd hp hw

/-- Witness for C4: a sensor with unwritten common registers on a bus whose
first write fails surfaces -EIO_errno and both flags stay false. -/
theorem start_streaming_failure_not_streaming_witness :
    failFirstSensor.dev.streaming = false ∧
    (((arducam_64mp_set_stream failFirstSensor true witnessRegs witnessRegs).1 =
       (arducam_64mp_start_streaming
          { failFirstSensor with
            dev := { failFirstSensor.dev with powered := true } }
          witnessRegs witnessRegs).1) ∧
     ((arducam_64mp_set_stream failFirstSensor true witnessRegs witnessRegs).1 ≠ 0 →
       (arducam_64mp_set_stream failFirstSensor true
          witnessRegs witnessRegs).2.dev.streaming = false) ∧
     (failFirstSensor.dev.common_regs_written = false →
      (arducam_64mp_write_regs
         { failFirstSensor with
           dev := { failFirstSensor.dev with powered := true } } witnessRegs).1 ≠ 0 →
      (arducam_64mp_set_stream failFirstSensor true
         witnessRegs witnessRegs).2.dev.common_regs_written = false ∧
      (arducam_64mp_set_stream failFirstSensor true witnessRegs witnessRegs).1 =
        (arducam_64mp_write_regs
           { failFirstSensor with
             dev := { failFirstSensor.dev with powered := true } } witnessRegs).1)) :=
  ⟨by decide,
   start_streaming_failure_not_streaming failFirstSensor witnessRegs witnessRegs
     (by decide)⟩

/-- C10: a VBLANK edit while the device is not powered still re-derives the
exposure maximum and clamps the exposure value, performs no device register
write, returns 0, keeps the recorded vblank value, and VBLANK is part of the
control list replayed at the next stream start. -/
theorem set_ctrl_vblank_unpowered (s : Sensor) (hp : s.dev.powered = false) :
    arducam_64mp_set_ctrl s CtrlId.vblank =
      (0, arducam_64mp_adjust_exposure_range s) ∧
    (arducam_64mp_set_ctrl s CtrlId.vblank).2.bus = s.bus ∧
    ((arducam_64mp_set_ctrl s CtrlId.vblank).2.dev.exposure.maximum =
       (s.dev.mode.height : Int) + s.dev.vblank.val - ARDUCAM_64MP_EXPOSURE_OFFSET) ∧
    ((arducam_64mp_set_ctrl s CtrlId.vblank).2.dev.exposure.val =
       min ((s.dev.mode.height : Int) + s.dev.vblank.val - ARDUCAM_64MP_EXPOSURE_OFFSET)
         (max s.dev.exposure.minimum s.dev.exposure.val)) ∧
    (arducam_64mp_set_ctrl s CtrlId.vblank).2.dev.vblank = s.dev.vblank ∧
    CtrlId.vblank ∈ ctrl_replay_order := by
  have hmain : arducam_64mp_set_ctrl s CtrlId.vblank =
      (0, arducam_64mp_adjust_exposure_range s) := by
    have hadj : arducam_64mp_set_ctrl s CtrlId.vblank =
        (if (arducam_64mp_adjust_exposure_range s).dev.powered = false then
           (0, arducam_64mp_adjust_exposure_range s)
         else
           arducam_64mp_set_frame_length (arducam_64mp_adjust_exposure_range s)
             (arducam_64mp_adjust_exposure_range s).dev.vblank.val.toNat) := rfl
    rw [hadj, if_pos (show (arducam_64mp_adjust_exposure_range s).dev.powered = false
      from hp)]
  refine ⟨hmain, ?_, ?_, ?_, ?_, ?_⟩
  · rw [hmain]
    rfl
  · rw [hmain]
    rfl
  · rw [hmain]
    simp [arducam_64mp_adjust_exposure_range, v4l2_ctrl_modify_range]
  · rw [hmain]
    rfl
  · simp [ctrl_replay_order]

/-- Witness for C10 at a concrete unpowered sensor. -/
theorem set_ctrl_vblank_unpowered_witness :
    unpoweredSensor.dev.powered = false ∧
    (arducam_64mp_set_ctrl unpoweredSensor CtrlId.vblank =
       (0, arducam_64mp_adjust_exposure_range unpoweredSensor) ∧
     (arducam_64mp_set_ctrl unpoweredSensor CtrlId.vblank).2.bus = unpoweredSensor.bus ∧
     ((arducam_64mp_set_ctrl unpoweredSensor CtrlId.vblank).2.dev.exposure.maximum =
        (unpoweredSensor.dev.mode.height : Int) + unpoweredSensor.dev.vblank.val -
          ARDUCAM_64MP_EXPOSURE_OFFSET) ∧
     ((arducam_64mp_set_ctrl unpoweredSensor CtrlId.vblank).2.dev.exposure.val =
        min ((unpoweredSensor.dev.mode.height : Int) + unpoweredSensor.dev.vblank.val -
               ARDUCAM_64MP_EXPOSURE_OFFSET)
          (max unpoweredSensor.dev.exposure.minimum unpoweredSensor.dev.exposure.val)) ∧
     (arducam_64mp_set_ctrl unpoweredSensor CtrlId.vblank).2.dev.vblank =
       unpoweredSensor.dev.vblank ∧
     CtrlId.vblank ∈ ctrl_replay_order) :=
  ⟨by decide, set_ctrl_vblank_unpowered unpoweredSensor (by decide)⟩

/-- C7: for every requested (width, height), set_pad_format selects from the
non-empty catalog the entry minimising total dimension distance (earliest
entry on ties), never fails, and installs the selected mode. -/
theorem set_pad_format_nearest_mode (s : Sensor) (w h : Nat) :
    ∃ l1 x l2,
      supported_modes = l1 ++ x :: l2 ∧
      v4l2_find_nearest_size w h supported_modes = some x ∧
      (arducam_64mp_set_pad_format s w h).1 = 0 ∧
      (arducam_64mp_set_pad_format s w h).2.dev.mode = x ∧
      (∀ y ∈ l1, dimension_distance x w h < dimension_distance y w h) ∧
      (∀ y ∈ l2, dimension_distance x w h ≤ dimension_distance y w h) := by
  obtain ⟨m0, rest, hsm⟩ : ∃ m0 rest, supported_modes = m0 :: rest := ⟨_, _, rfl⟩
  obtain ⟨l1, x, l2, hsplit, hfind, hl1, hl2⟩ := find_nearest_spec w h m0 rest
  have hfind' : v4l2_find_nearest_size w h supported_modes = some x := by
    rw [hsm]
    exact hfind
  have h1 : (arducam_64mp_set_pad_format s w h).1 = 0 := by
    simp [arducam_64mp_set_pad_format, hfind']
  have h2 : (arducam_64mp_set_pad_format s w h).2.dev.mode = x := by
    simp only [arducam_64mp_set_pad_format, hfind']
    rw [set_framing_limits_mode]
  exact ⟨l1, x, l2, by rw [hsm, hsplit], hfind', h1, h2, hl1, hl2⟩

end Arducam
